import Mathlib

/-!
Verification development for the homebot repository: a webhook-driven
Telegram chat bot that keeps its TLS certificate and the platform-side
webhook registration consistent with a dynamically-assigned public IP.

The embedding below translates the relevant parts of the Rust sources
(`src/main.rs`, `src/lib/telegrambot.rs`, `src/lib/opentmeteo.rs`) into
executable Lean definitions.  External effects (IP resolution, HTTP calls
to the bot platform, certificate generation, the random dice roll) are
represented by per-tick / per-message environment records carrying their
observed outcomes; the control flow acting on those outcomes is translated
directly from the source.
-/

namespace Homebot

/-! ## Platform data model (src/lib/telegrambot.rs, `Response<Webhook>`) -/

/-- The `result` object of the platform's `getWebhookInfo` reply:
`{ ip_address: Option<string>, has_custom_certificate: bool }`. -/
structure Webhook where
  ip_address : Option String
  has_custom_certificate : Bool
deriving DecidableEq, Repr

/-- The platform's response envelope `Response<Webhook>`:
`{ ok: bool, result: Webhook }`. -/
structure WebhookResponse where
  ok : Bool
  result : Webhook
deriving DecidableEq, Repr

/-- Embedding of `TelegramBot::is_webhook_configured`
(src/lib/telegrambot.rs:133-149), given the platform's parsed response to
the `getWebhookInfo` request.  The Rust body returns
`Ok(ip_addr == ip && has_custom_certificate)` when `resp.ok` holds and an
`ip_address` is present, and otherwise falls through to
`bail!("Could not get correct webhook")`. -/
def is_webhook_configured (resp : WebhookResponse) (ip : String) :
    Except String Bool :=
  if resp.ok then
    match resp.result.ip_address with
    | some ip_addr =>
        Except.ok (ip_addr == ip && resp.result.has_custom_certificate)
    | none => Except.error "Could not get correct webhook"
  else
    Except.error "Could not get correct webhook"

/-! ## The monitor task (src/main.rs:33-71)

One loop iteration ("tick") observes: the result of `utils::get_ip()`,
the platform's `getWebhookInfo` response, and — when reached — the
success/failure of `BotServer::generate_certificate` and of
`TelegramBot::update_webhook_cert`. -/

/-- The external outcomes one monitor tick can observe. -/
structure TickEnv where
  /-- Result of `utils::get_ip().await` — `some ip` on `Ok(ip)`, `none` on `Err`. -/
  ipResult : Option String
  /-- the platform response behind `is_webhook_configured(&current_ip)`. -/
  webhookResp : WebhookResponse
  /-- whether `BotServer::generate_certificate(..)` returns `Ok`. -/
  genOk : Bool
  /-- whether `update_webhook_cert(..)` returns `Ok`. -/
  regOk : Bool
deriving DecidableEq, Repr

/-- How a monitor tick ends. -/
inductive TickOutcome where
  /-- Case where `get_ip` failed: the `if let Ok` guard skips the whole body. -/
  | skipped
  /-- Case where `is_webhook_configured(..).unwrap()` was called on an `Err`:
  the monitor task panics (src/main.rs:38). -/
  | panicked
  /-- the webhook is already set: sleep and `continue` (src/main.rs:40-44). -/
  | alreadyConfigured
  /-- Case where `generate_certificate` failed: only `error!` is logged (line 66). -/
  | genFailed
  /-- Case where `update_webhook_cert` failed: only `error!` is logged (line 60). -/
  | regFailed
  /-- both succeeded: `config_changed.notify_one()` is called (line 63). -/
  | signalled
deriving DecidableEq, Repr

/-- Embedding of one iteration of the monitor loop (src/main.rs:34-70). -/
def monitorTick (env : TickEnv) : TickOutcome :=
  match env.ipResult with
  | none => TickOutcome.skipped
  | some ip =>
    match is_webhook_configured env.webhookResp ip with
    | Except.error _ => TickOutcome.panicked
    | Except.ok true => TickOutcome.alreadyConfigured
    | Except.ok false =>
        if env.genOk then
          if env.regOk then TickOutcome.signalled else TickOutcome.regFailed
        else TickOutcome.genFailed

/-- Whether the tick calls `config_changed.notify_one()`. -/
def signalRaised (env : TickEnv) : Bool :=
  monitorTick env == TickOutcome.signalled

/-- Whether the tick invokes `BotServer::generate_certificate`. -/
def genInvoked (env : TickEnv) : Bool :=
  match monitorTick env with
  | TickOutcome.genFailed | TickOutcome.regFailed | TickOutcome.signalled => true
  | _ => false

/-- Whether the tick invokes `update_webhook_cert`. -/
def regInvoked (env : TickEnv) : Bool :=
  match monitorTick env with
  | TickOutcome.regFailed | TickOutcome.signalled => true
  | _ => false

/-! ## The serving loop and the restart signal (src/main.rs:73-91)

`config_changed` is a `tokio::sync::Notify`: `notify_one()` stores at most
one permit (repeated calls before a `notified().await` coalesce), and
`notified().await` resolves by consuming the stored permit.  The serving
loop races `server.start()` against `config_changed.notified()`; the first
branch `break`s out of the loop, the second stops the server, rebuilds it
on the next iteration and continues. -/

/-- Observable state of the serving loop together with the `Notify`
permit slot shared with the monitor task. -/
structure LoopState where
  /-- the single `Notify` permit: a restart is pending. -/
  pending : Bool
  /-- how many stop-and-rebuild cycles the serving loop has performed. -/
  rebuilds : Nat
  /-- the serving loop has executed `break` (src/main.rs:80). -/
  exited : Bool
deriving DecidableEq, Repr

/-- Events affecting the serving loop: the monitor raising the signal, and
the two ways the `select!` can resolve. -/
inductive Ev where
  /-- Event for `config_changed.notify_one()` on the monitor task (src/main.rs:63). -/
  | signal
  /-- Modelled from the spec: `BotServer::start` lives in `src/server.rs`,
  which is not among the sources; spec 4.5 says the accept loop
  "terminates with an unrecoverable error (→ process-level failure,
  propagated up)", so its termination is modelled as the first `select!`
  branch resolving.  The branch pattern `_ = server.start()` discards the
  resolved value and executes `break` (src/main.rs:80). -/
  | startTerminated
  /-- the `config_changed.notified()` branch resolves, which requires a
  stored permit and consumes it (src/main.rs:82-86). -/
  | waitResolved
deriving DecidableEq, Repr

/-- The initial state: no permit stored, no rebuild performed, loop live. -/
def initState : LoopState := { pending := false, rebuilds := 0, exited := false }

/-- One event step of the serving loop / `Notify` pair.  `notify_one` on a
slot that already holds a permit is a no-op beyond keeping it stored (no
counting); `notified()` resolves only when a permit is stored and clears
it, after which the loop stops the server and rebuilds (`continue`). -/
def step (s : LoopState) (e : Ev) : LoopState :=
  if s.exited then s
  else
    match e with
    | Ev.signal => { s with pending := true }
    | Ev.startTerminated => { s with exited := true }
    | Ev.waitResolved =>
        if s.pending then
          { s with pending := false, rebuilds := s.rebuilds + 1 }
        else s

/-- Run the serving loop over a sequence of events. -/
def run (s : LoopState) (es : List Ev) : LoopState := es.foldl step s

/-- Embedding of `main`'s return after the serving loop: the `break`
branch discards the value `server.start()` resolved with, and control
falls through to `Ok(())` (src/main.rs:80, 90).  `none` means the loop is
still running. -/
def mainReturn (es : List Ev) : Option (Except String Unit) :=
  if (run initState es).exited then some (Except.ok ()) else none

/-- The process exit status for `main`'s returned `Result`:
`Ok` exits with status 0, `Err` with a non-zero status. -/
def exitCode : Except String Unit → Nat
  | Except.ok _ => 0
  | Except.error _ => 1

/-! ## The message dispatcher (src/lib/telegrambot.rs:101-131)

`handle_message` splits the message text on whitespace and matches on the
first token.  Temperatures are `f32` in the source and appear in the reply
only through `temp.to_string()`; the embedding represents a temperature by
that decimal rendering (a `String`), which is all the dispatcher ever
inspects. -/

/-- Accumulator pass over the characters: split on whitespace, dropping
empty fragments; `acc` holds the current fragment reversed. -/
def splitWsAux : List Char → List Char → List String
  | [], acc => if acc.isEmpty then [] else [String.mk acc.reverse]
  | c :: cs, acc =>
      if c.isWhitespace then
        if acc.isEmpty then splitWsAux cs []
        else String.mk acc.reverse :: splitWsAux cs []
      else splitWsAux cs (c :: acc)

/-- Rust's `str::split_whitespace`: the whitespace-delimited tokens of the
text, with no empty fragments. -/
def split_whitespace (s : String) : List String :=
  splitWsAux s.data []

/-- The `WeatherProvider` capability as used by `handle_message`
(src/lib/telegrambot.rs:114-118): `get_temperature(city) -> Option<f32>`
(represented by its rendered decimal) and `get_favourite_city()`. -/
structure WeatherCap where
  get_temperature : String → Option String
  get_favourite_city : String

/-- Outcomes of the external calls a single `handle_message` invocation
can make. -/
structure HandlerEnv where
  /-- Result of `get_ip().await` in the `"/ip"` arm — `some ip` on `Ok`. -/
  ipResult : Option String
  /-- Value of `rand::thread_rng().gen_range(1..=6)` in the `"/dice"` arm. -/
  dice : Nat
  /-- Result of `self.get_affirmation().await` in the `"/affirm"` arm. -/
  affirmation : Except String String

/-- Embedding of the answer computation of `TelegramBot::handle_message`
(src/lib/telegrambot.rs:101-131).  The returned value is the string passed
to `self.reply`; `Except.error` is the error the `?` on
`self.get_affirmation().await?` propagates out of `handle_message`
(line 125). -/
def handle_message (w : WeatherCap) (env : HandlerEnv) (text : String) :
    Except String String :=
  let command := split_whitespace text
  match command.head? with
  | some "/ip" =>
      Except.ok (match env.ipResult with
        | some ip => ip
        | none => "Problem getting the ip, try again")
  | some "/temp" =>
      let city := match (command.drop 1).head? with
        | some arg => arg
        | none => w.get_favourite_city
      Except.ok (match w.get_temperature city with
        | some temp => temp
        | none => "Error getting the temp")
  | some "/dice" => Except.ok (toString env.dice)
  | some "/affirm" =>
      match env.affirmation with
      | Except.ok a => Except.ok a
      | Except.error e => Except.error e
  | some "hello" => Except.ok "hello back :)"
  | _ => Except.ok "did not understand!"

/-! ## OpenMeteo::get_temperature (src/lib/opentmeteo.rs:113-134)

The interesting step is `forecast.hourly.temperature_2m[(hour - 1) as usize]`
with `hour : u32 = chrono::Local::now().hour()` (in `0..24`).  `hour - 1`
is an unsigned `u32` subtraction: for `hour = 0` it wraps to `2^32 - 1`
(release semantics; a debug build panics on the overflow itself), and
`Vec` indexing panics when the index is out of bounds.  Temperatures are
again represented by their decimal renderings; the `serde_json` parse of
a received body is modelled as yielding the hourly temperature list. -/

/-- The wrapping `u32` computation `(hour - 1) as usize`. -/
def hourIndex (hour : Nat) : Nat := (hour + (2 ^ 32 - 1)) % 2 ^ 32

/-- Result of an `OpenMeteo::get_temperature` call: `Some(t)`, `None`, or
a panic of the calling task. -/
inductive TempResult where
  | value (t : String)
  | noneRes
  | panicked
deriving DecidableEq, Repr

/-- Outcomes of the external calls inside `OpenMeteo::get_temperature`. -/
structure MeteoEnv where
  /-- Result of `self.get_geolocation(city).await.ok()`: `some (some ())` when the
  geocoding call succeeded and returned coordinates. -/
  geolocation : Option (Option Unit)
  /-- whether the forecast `GET` `send()` returned `Ok`. -/
  sendOk : Bool
  /-- Content of `req.text().await.ok()`, post-parse: the `hourly.temperature_2m`
  list of the received forecast body, when a body was received. -/
  body : Option (List String)
  /-- Value of `chrono::Local::now().hour()`, in `0..24`. -/
  hour : Nat
deriving Repr

/-- Embedding of `OpenMeteo::get_temperature`
(src/lib/opentmeteo.rs:113-134). -/
def OpenMeteo.get_temperature (env : MeteoEnv) : TempResult :=
  match env.geolocation with
  | some (some _) =>
      if env.sendOk then
        match env.body with
        | some temps =>
            let idx := hourIndex env.hour
            if idx < temps.length then TempResult.value (temps.getD idx "")
            else TempResult.panicked
        | none => TempResult.noneRes
      else TempResult.noneRes
  | _ => TempResult.noneRes

/-! ## Sequence-level view of the monitor (for the change-detection claim)

The spec describes the monitor as comparing each resolved address against
the last observed one.  To state that claim we count, over a sequence of
ticks, the distinct observed address changes (the first successful
resolution included; failed resolutions skipped) and the ticks on which
the reconciliation sequence (certificate generation / registration) is
actually entered. -/

/-- Number of distinct observed address changes in a sequence of
IP-resolution results: a change is a successful resolution whose address
differs from the last successfully resolved one, the very first successful
resolution included; failed resolutions do not update the last address. -/
def observedChanges (ips : List (Option String)) : Nat :=
  (ips.foldl
    (fun acc r =>
      match r with
      | none => acc
      | some ip => if acc.1 = some ip then acc else (some ip, acc.2 + 1))
    ((none : Option String), 0)).2

/-- Number of ticks in a sequence on which the monitor enters the
reconciliation sequence (invokes certificate generation). -/
def triggerCount (envs : List TickEnv) : Nat :=
  (envs.filter fun e => genInvoked e).length

/-- The change-detection claim as stated: over any observed sequence of
ticks, the reconciliation sequence is triggered exactly once per distinct
observed address change. -/
def claimChangeDetection (envs : List TickEnv) : Prop :=
  triggerCount envs = observedChanges (envs.map TickEnv.ipResult)

/-! ## Helper lemmas -/

/-- Running a concatenation of event lists runs each part in turn. -/
theorem run_append (s : LoopState) (es fs : List Ev) :
    run s (es ++ fs) = run (run s es) fs :=
  List.foldl_append step s es fs

/-- Repeated `notify_one` on a live loop with a stored permit keeps
exactly one permit stored and performs no rebuild. -/
theorem run_signal_stays (n k : Nat) :
    run ⟨true, k, false⟩ (List.replicate n Ev.signal) = ⟨true, k, false⟩ := by
  induction n with
  | zero => rfl
  | succ n ih => rw [List.replicate_succ]; exact ih

/-- Waiting with no permit stored changes nothing. -/
theorem run_wait_idle (m k : Nat) :
    run ⟨false, k, false⟩ (List.replicate m Ev.waitResolved) =
      ⟨false, k, false⟩ := by
  induction m with
  | zero => rfl
  | succ m ih => rw [List.replicate_succ]; exact ih

/-- Characterization of a tick's entry into the reconciliation sequence:
`generate_certificate` is invoked exactly on ticks whose IP resolution
succeeded and whose webhook check returned `Ok(false)`. -/
theorem genInvoked_iff (env : TickEnv) (ip : String)
    (h : env.ipResult = some ip) :
    genInvoked env = true ↔
      is_webhook_configured env.webhookResp ip = Except.ok false := by
  obtain ⟨ipr, resp, g, r⟩ := env
  simp only at h
  subst h
  cases hw : is_webhook_configured resp ip with
  | error e => simp [genInvoked, monitorTick, hw]
  | ok b =>
    cases b with
    | true => simp [genInvoked, monitorTick, hw]
    | false =>
      cases g <;> cases r <;> simp [genInvoked, monitorTick, hw]

/-! ## Claims -/

/-- C1: In every monitor-loop cycle, the restart signal
(`config_changed.notify_one()`) is raised only when both certificate
generation and the platform registration of the new certificate reported
success; if either fails, the signal is not raised in that cycle and the
serving loop performs no rebuild for it. -/
theorem C1_signal_only_after_success (env : TickEnv) :
    (signalRaised env = true → env.genOk = true ∧ env.regOk = true) ∧
    ((env.genOk = false ∨ env.regOk = false) →
      signalRaised env = false ∧
      (run initState ((if signalRaised env then [Ev.signal] else []) ++
        [Ev.waitResolved])).rebuilds = 0) := by
  obtain ⟨ipr, resp, g, r⟩ := env
  have hsig : signalRaised ⟨ipr, resp, g, r⟩ = true →
      g = true ∧ r = true := by
    intro h
    cases ipr with
    | none => simp [signalRaised, monitorTick] at h
    | some ip =>
      cases hw : is_webhook_configured resp ip with
      | error e => simp [signalRaised, monitorTick, hw] at h
      | ok b =>
        cases b with
        | true => simp [signalRaised, monitorTick, hw] at h
        | false =>
          cases g <;> cases r <;>
            simp [signalRaised, monitorTick, hw] at h ⊢
  refine ⟨hsig, fun hfail => ?_⟩
  have hnot : signalRaised ⟨ipr, resp, g, r⟩ = false := by
    cases hs : signalRaised ⟨ipr, resp, g, r⟩ with
    | false => rfl
    | true =>
      obtain ⟨hg, hr⟩ := hsig hs
      cases hfail with
      | inl h => rw [hg] at h; exact absurd h (by simp)
      | inr h => rw [hr] at h; exact absurd h (by simp)
  refine ⟨hnot, ?_⟩
  rw [hnot]
  rfl

/-- Witness for C1 at a concrete tick whose registration fails. -/
theorem C1_witness :
    signalRaised
      ⟨some "1.2.3.4", ⟨true, ⟨some "5.6.7.8", true⟩⟩, true, false⟩ =
      false :=
  ((C1_signal_only_after_success
      ⟨some "1.2.3.4", ⟨true, ⟨some "5.6.7.8", true⟩⟩, true, false⟩).2
    (Or.inr rfl)).1

/-- C2 counterexample: two consecutive ticks resolve the same address while
the platform still reports the previous one and the registration keeps
failing; the reconciliation sequence is entered on both ticks although the
observed sequence contains a single distinct address change. -/
theorem C2_counterexample :
    ¬ claimChangeDetection
      [⟨some "1.2.3.4", ⟨true, ⟨some "5.6.7.8", true⟩⟩, true, false⟩,
       ⟨some "1.2.3.4", ⟨true, ⟨some "5.6.7.8", true⟩⟩, true, false⟩] := by
  unfold claimChangeDetection
  decide

/-- C2 (amended): the monitor keeps no record of the last observed address;
on every tick whose IP resolution succeeds it queries the platform, and
the reconciliation sequence is entered exactly when that check returns
`Ok(false)` — independently of whether the address changed since the
previous tick.  A tick whose resolution fails never reconciles. -/
theorem C2_reconcile_on_verify (env : TickEnv) (ip : String) :
    (env.ipResult = some ip →
      (genInvoked env = true ↔
        is_webhook_configured env.webhookResp ip = Except.ok false)) ∧
    (env.ipResult = none → genInvoked env = false) := by
  refine ⟨fun h => genInvoked_iff env ip h, fun h => ?_⟩
  obtain ⟨ipr, resp, g, r⟩ := env
  simp only at h
  subst h
  rfl

/-- Witness for C2's amended statement at a concrete tick. -/
theorem C2_witness :
    genInvoked
      ⟨some "1.2.3.4", ⟨true, ⟨some "5.6.7.8", true⟩⟩, true, false⟩ =
      true :=
  ((C2_reconcile_on_verify
      ⟨some "1.2.3.4", ⟨true, ⟨some "5.6.7.8", true⟩⟩, true, false⟩
      "1.2.3.4").1 rfl).mpr rfl

/-- C3 counterexample: on a platform-reported error (`ok = false`) the
function does not return `false` — it returns the `bail!` error
`"Could not get correct webhook"`. -/
theorem C3_counterexample :
    is_webhook_configured ⟨false, ⟨some "1.2.3.4", true⟩⟩ "1.2.3.4" =
      Except.error "Could not get correct webhook" ∧
    is_webhook_configured ⟨false, ⟨some "1.2.3.4", true⟩⟩ "1.2.3.4" ≠
      Except.ok false :=
  ⟨rfl, fun h => Except.noConfusion h⟩

/-- C3 (amended): `is_webhook_configured` returns `Ok(true)` exactly when
the response has `ok` set, reports an `ip_address` equal to the argument
and has `has_custom_certificate`; it returns `Ok(false)` when `ok` is set
and an `ip_address` is present but that conjunction fails; and it returns
the error `"Could not get correct webhook"` (not `false`) when the
response is not `ok` or carries no `ip_address`. -/
theorem C3_verify_characterization (resp : WebhookResponse) (ip : String) :
    (is_webhook_configured resp ip = Except.ok true ↔
      resp.ok = true ∧ resp.result.ip_address = some ip ∧
        resp.result.has_custom_certificate = true) ∧
    (is_webhook_configured resp ip =
        Except.error "Could not get correct webhook" ↔
      resp.ok = false ∨ resp.result.ip_address = none) := by
  obtain ⟨ok, ipa, cert⟩ := resp
  cases ok with
  | false => cases ipa <;> simp [is_webhook_configured]
  | true =>
    cases ipa with
    | none => simp [is_webhook_configured]
    | some a =>
      cases cert <;> simp [is_webhook_configured]

/-- Witness for C3's amended statement at a concrete matching response. -/
theorem C3_witness :
    is_webhook_configured ⟨true, ⟨some "1.2.3.4", true⟩⟩ "1.2.3.4" =
      Except.ok true :=
  ((C3_verify_characterization ⟨true, ⟨some "1.2.3.4", true⟩⟩
      "1.2.3.4").1).mpr ⟨rfl, rfl, rfl⟩

/-- C4: the code contradicts the claim — `is_webhook_configured(..)` is
`.unwrap()`ed in the monitor loop (src/main.rs:38), so a platform-reported
error (`ok = false`) or a response without an `ip_address` panics the
monitor task instead of being logged and skipped. -/
theorem C4_platform_error_panics :
    monitorTick
      ⟨some "1.2.3.4", ⟨false, ⟨some "1.2.3.4", true⟩⟩, true, true⟩ =
      TickOutcome.panicked ∧
    monitorTick ⟨some "1.2.3.4", ⟨true, ⟨none, true⟩⟩, true, true⟩ =
      TickOutcome.panicked ∧
    monitorTick
      ⟨none, ⟨true, ⟨some "1.2.3.4", true⟩⟩, true, true⟩ =
      TickOutcome.skipped :=
  ⟨rfl, rfl, rfl⟩

/-- C5: on a cycle whose webhook check returns `Ok(true)` the monitor
sleeps and continues: certificate generation and registration are not
invoked and the restart signal is not raised. -/
theorem C5_verify_true_skips (env : TickEnv) (ip : String)
    (h1 : env.ipResult = some ip)
    (h2 : is_webhook_configured env.webhookResp ip = Except.ok true) :
    monitorTick env = TickOutcome.alreadyConfigured ∧
    genInvoked env = false ∧ regInvoked env = false ∧
    signalRaised env = false := by
  obtain ⟨ipr, resp, g, r⟩ := env
  simp only at h1 h2
  subst h1
  simp [monitorTick, genInvoked, regInvoked, signalRaised, h2]

/-- Witness for C5 at a concrete correctly-configured tick. -/
theorem C5_witness :
    monitorTick
      ⟨some "1.2.3.4", ⟨true, ⟨some "1.2.3.4", true⟩⟩, true, true⟩ =
      TickOutcome.alreadyConfigured ∧
    genInvoked
      ⟨some "1.2.3.4", ⟨true, ⟨some "1.2.3.4", true⟩⟩, true, true⟩ =
      false ∧
    regInvoked
      ⟨some "1.2.3.4", ⟨true, ⟨some "1.2.3.4", true⟩⟩, true, true⟩ =
      false ∧
    signalRaised
      ⟨some "1.2.3.4", ⟨true, ⟨some "1.2.3.4", true⟩⟩, true, true⟩ =
      false :=
  C5_verify_true_skips _ "1.2.3.4" rfl rfl

/-- C6: raising the restart signal two or more times before the serving
loop consumes it coalesces to a single pending permit, and the serving
loop performs exactly one stop-and-rebuild for all of them — further
consumption attempts find no permit and rebuild nothing. -/
theorem C6_signals_coalesce (n m : Nat) (h : 2 ≤ n) :
    run initState (List.replicate n Ev.signal ++
      Ev.waitResolved :: List.replicate m Ev.waitResolved) =
      ⟨false, 1, false⟩ := by
  obtain ⟨k, rfl⟩ : ∃ k, n = k + 1 := ⟨n - 1, by omega⟩
  rw [run_append, List.replicate_succ]
  have h1 : run initState (Ev.signal :: List.replicate k Ev.signal) =
      ⟨true, 0, false⟩ := run_signal_stays k 0
  rw [h1]
  show run (step ⟨true, 0, false⟩ Ev.waitResolved)
      (List.replicate m Ev.waitResolved) = ⟨false, 1, false⟩
  exact run_wait_idle m 1

/-- Witness for C6: two signals then one consumption yield one rebuild. -/
theorem C6_witness :
    run initState (List.replicate 2 Ev.signal ++
      Ev.waitResolved :: List.replicate 0 Ev.waitResolved) =
      ⟨false, 1, false⟩ :=
  C6_signals_coalesce 2 0 (by decide)

/-- C9 counterexample: when the accept loop (`server.start()`) terminates,
the serving loop `break`s and `main` returns `Ok(())`, so the process
exits with status `0` — not a non-zero status. -/
theorem C9_counterexample :
    mainReturn [Ev.startTerminated] = some (Except.ok ()) ∧
    exitCode (Except.ok ()) = 0 :=
  ⟨rfl, rfl⟩

/-- C9 (amended): whenever the serving loop exits (which happens exactly
when the `server.start()` branch of the `select!` resolves), the resolved
value is discarded by the `_` pattern and `main` falls through to
`Ok(())`; the process therefore exits with a success status, the listener
failure is not propagated as a non-zero exit. -/
theorem C9_exit_is_success (es : List Ev)
    (h : (run initState es).exited = true) :
    mainReturn es = some (Except.ok ()) ∧
    exitCode (Except.ok ()) = 0 := by
  refine ⟨?_, rfl⟩
  unfold mainReturn
  rw [h]
  rfl

/-- Witness for C9's amended statement: a trace in which the accept loop
terminates at once. -/
theorem C9_witness :
    mainReturn [Ev.startTerminated] = some (Except.ok ()) ∧
    exitCode (Except.ok ()) = 0 :=
  C9_exit_is_success [Ev.startTerminated] rfl

/-- C7: the dispatcher selects by the first whitespace-delimited token:
`"hello"` answers `"hello back :)"`; `"/dice"` answers the decimal
rendering of the rolled value, a string in `["1",…,"6"]`; `"/temp Paris"`
with a weather capability returning `21.5` answers `"21.5"`; `"/temp"`
with no argument queries the capability's favourite city; a capability
returning no result answers `"Error getting the temp"`; unrecognized
input answers `"did not understand!"`. -/
theorem C7_dispatch (w : WeatherCap) (env : HandlerEnv)
    (hd1 : 1 ≤ env.dice) (hd2 : env.dice ≤ 6) :
    handle_message w env "hello" = Except.ok "hello back :)" ∧
    (handle_message w env "/dice" = Except.ok (toString env.dice) ∧
      toString env.dice ∈ ["1", "2", "3", "4", "5", "6"]) ∧
    (w.get_temperature "Paris" = some "21.5" →
      handle_message w env "/temp Paris" = Except.ok "21.5") ∧
    handle_message w env "/temp" =
      Except.ok (match w.get_temperature w.get_favourite_city with
        | some temp => temp
        | none => "Error getting the temp") ∧
    (w.get_temperature w.get_favourite_city = none →
      handle_message w env "/temp" = Except.ok "Error getting the temp") ∧
    handle_message w env "xyz" = Except.ok "did not understand!" := by
  obtain ⟨ipr, d, aff⟩ := env
  simp only at hd1 hd2
  refine ⟨rfl, ⟨rfl, ?_⟩, ?_, rfl, ?_, rfl⟩
  · show toString d ∈ ["1", "2", "3", "4", "5", "6"]
    interval_cases d <;> decide
  · intro h
    show Except.ok (match w.get_temperature "Paris" with
      | some temp => temp
      | none => "Error getting the temp") = Except.ok "21.5"
    rw [h]
  · intro h
    show Except.ok (match w.get_temperature w.get_favourite_city with
      | some temp => temp
      | none => "Error getting the temp") =
      Except.ok "Error getting the temp"
    rw [h]

/-- Witness for C7 at a concrete stub capability and environment. -/
theorem C7_witness :
    handle_message
      ⟨fun c => if c = "Paris" then some "21.5" else none, "Tunis"⟩
      ⟨some "7.7.7.7", 3, Except.ok "nice"⟩ "hello" =
      Except.ok "hello back :)" :=
  (C7_dispatch
    ⟨fun c => if c = "Paris" then some "21.5" else none, "Tunis"⟩
    ⟨some "7.7.7.7", 3, Except.ok "nice"⟩ (by decide) (by decide)).1

/-- C8 counterexample: a failing affirmation service is not converted to a
reply string — the `?` on `self.get_affirmation().await?` propagates the
error out of `handle_message`. -/
theorem C8_counterexample :
    handle_message ⟨fun _ => none, "Tunis"⟩
      ⟨none, 1, Except.error "affirmation service down"⟩ "/affirm" =
      Except.error "affirmation service down" :=
  rfl

/-- C8 (amended): failures of the weather lookup and of the IP echo are
caught and converted into user-facing reply strings, but a failure of the
affirmation service propagates as an error out of `handle_message`. -/
theorem C8_failure_handling (w : WeatherCap) (env : HandlerEnv)
    (e : String) :
    (w.get_temperature w.get_favourite_city = none →
      handle_message w env "/temp" = Except.ok "Error getting the temp") ∧
    (env.ipResult = none →
      handle_message w env "/ip" =
        Except.ok "Problem getting the ip, try again") ∧
    (env.affirmation = Except.error e →
      handle_message w env "/affirm" = Except.error e) := by
  obtain ⟨ipr, d, aff⟩ := env
  refine ⟨?_, ?_, ?_⟩
  · intro h
    show Except.ok (match w.get_temperature w.get_favourite_city with
      | some temp => temp
      | none => "Error getting the temp") =
      Except.ok "Error getting the temp"
    rw [h]
  · intro h
    simp only at h
    subst h
    rfl
  · intro h
    simp only at h
    subst h
    rfl

/-- Witness for C8's amended statement: the affirmation error propagates
at a concrete input. -/
theorem C8_witness :
    handle_message ⟨fun _ => none, "Tunis"⟩
      ⟨none, 1, Except.error "boom"⟩ "/affirm" = Except.error "boom" :=
  (C8_failure_handling ⟨fun _ => none, "Tunis"⟩
    ⟨none, 1, Except.error "boom"⟩ "boom").2.2 rfl

/-- C10: when geolocation and the forecast fetch succeed,
`OpenMeteo::get_temperature` indexes the 24-entry hourly list at the
wrapping `u32` index `hour - 1`: for `1 ≤ hour < 24` this yields entry
`hour - 1`, but for `hour = 0` the subtraction underflows to `2^32 - 1`,
the lookup is out of range and the call panics instead of returning
`None`. -/
theorem C10_hour_underflow (temps : List String) (hour : Nat)
    (hlen : temps.length = 24) (hhour : hour < 24) :
    (1 ≤ hour →
      OpenMeteo.get_temperature ⟨some (some ()), true, some temps, hour⟩ =
        TempResult.value (temps.getD (hour - 1) "")) ∧
    (hour = 0 →
      OpenMeteo.get_temperature ⟨some (some ()), true, some temps, hour⟩ =
        TempResult.panicked) := by
  constructor
  · intro h
    have hidx : hourIndex hour = hour - 1 := by
      unfold hourIndex
      omega
    simp [OpenMeteo.get_temperature, hidx, hlen]
    omega
  · intro h
    subst h
    have hidx : hourIndex 0 = 2 ^ 32 - 1 := by
      unfold hourIndex
      omega
    simp [OpenMeteo.get_temperature, hidx, hlen]

/-- Witness for C10: local hour 0 panics on a well-formed 24-entry
forecast. -/
theorem C10_witness :
    OpenMeteo.get_temperature
      ⟨some (some ()), true, some (List.replicate 24 "20.1"), 0⟩ =
      TempResult.panicked :=
  (C10_hour_underflow (List.replicate 24 "20.1") 0 (by simp)
    (by decide)).2 rfl

end Homebot
